import Mathlib

/-!
Verification of the phoenix-os-cockpit execution-profile resolver and the
pre-sales helper logic.  Shallow embedding of:
  * `src/examples/research-agent.ts` (ResearchAgent),
  * `src/examples/typescript-fundamentals.ts` (TypeSafeAgent.resolveModel),
  * the pre-sales agent file (scoreLeadTool, PreSalesAgent.formatFollowUpSequence).
TypeScript runtime values are modelled as: strings as `String`, JS numbers as
`ℚ` (exact arithmetic), optional fields as `Option`, objects as structures.
Depth is modelled as a `String` because the runtime behaviour on values
outside the declared union type (reachable from plain JavaScript callers) is
what several properties probe; the `switch` statements are translated to
equality chains with their `default` branches.
-/

/-- The `outputFormat` union type `'summary' | 'detailed' | 'executive'` of
`ResearchConfig` in research-agent.ts. -/
inductive OutputFormat where
  | summary
  | detailed
  | executive
  deriving DecidableEq, Repr

/-- The string value a JS template literal interpolates for each member of the
`outputFormat` union. -/
def outputFormatStr : OutputFormat → String
  | .summary => "summary"
  | .detailed => "detailed"
  | .executive => "executive"

/-- `ResearchConfig` from research-agent.ts lines 11-16. -/
structure ResearchConfig where
  topic : String
  depth : String
  includeCitations : Bool
  outputFormat : OutputFormat
  deriving DecidableEq, Repr

/-- `ResearchAgent.getModelByDepth` (research-agent.ts lines 152-163): a
`switch` on `this.config.depth` with a `default` branch returning the Sonnet
model id. -/
def getModelByDepth (depth : String) : String :=
  if depth = "quick" then "claude-haiku-4-5-20251001"
  else if depth = "standard" then "claude-sonnet-4-5-20250929"
  else if depth = "comprehensive" then "claude-opus-4-1-20250805"
  else "claude-sonnet-4-5-20250929"

/-- `ResearchAgent.getSearchIterations` (research-agent.ts lines 168-175): a
`switch` on `this.config.depth` with a `default` branch returning 20. -/
def getSearchIterations (depth : String) : Nat :=
  if depth = "quick" then 10
  else if depth = "standard" then 20
  else if depth = "comprehensive" then 40
  else 20

/-- The `formats` record of `ResearchAgent.getFormatInstructions`
(research-agent.ts lines 120-147), indexed by the output format. -/
def getFormatInstructions : OutputFormat → String
  | .summary =>
      "\nFormat as a concise summary:\n- Executive overview (2-3 sentences)\n- Key findings (bullet points)\n- Conclusion (1-2 sentences)"
  | .detailed =>
      "\nFormat as a detailed report:\n- Executive Summary\n- Background & Context\n- Key Findings (with subsections)\n- Analysis & Implications\n- Recommendations\n- Appendix (if needed)"
  | .executive =>
      "\nFormat for executive audience:\n- One-page overview\n- Top 3 insights\n- Business implications\n- Recommended actions\n- Risk factors"

/-- `ResearchAgent.buildSystemPrompt` (research-agent.ts lines 66-98): the
system-prompt template literal, with the citation ternary, the interpolated
output format, and the format instructions appended. -/
def buildSystemPrompt (c : ResearchConfig) : String :=
  "You are an expert research analyst specializing in comprehensive information gathering and synthesis.\n\nYour research methodology:\n\n1. **Information Gathering Phase**\n   - Start with broad searches to understand the landscape\n   - Identify authoritative sources and key subtopics\n   - Use progressive search refinement based on initial findings\n   - Cross-reference information from multiple sources\n\n2. **Analysis Phase**\n   - Extract key facts, statistics, and insights\n   - Identify patterns, trends, and relationships\n   - Note conflicting information and assess credibility\n   - Score confidence levels for each finding\n\n3. **Synthesis Phase**\n   - Organize information into logical categories\n   - Create a narrative that connects findings\n   - Highlight key insights and implications\n   - Generate actionable recommendations\n\nResearch Quality Standards:\n- "
    ++ (if c.includeCitations then "ALWAYS cite sources with URLs" else "Summarize without citations")
    ++ "\n- Prioritize recent information (last 2 years when possible)\n- Focus on authoritative sources\n- Verify controversial or surprising claims\n- Acknowledge limitations and gaps in available information\n\nOutput Format: "
    ++ outputFormatStr c.outputFormat
    ++ "\n"
    ++ getFormatInstructions c.outputFormat

/-- The `depthInstructions` record of `ResearchAgent.buildResearchPrompt`
(research-agent.ts lines 104-108).  JS object indexing with a key outside the
three declared ones yields `undefined`, hence `Option`. -/
def depthInstructions (d : String) : Option String :=
  if d = "quick" then some "Provide a quick overview with 3-5 key points."
  else if d = "standard" then some "Conduct a standard research with 5-10 key findings and supporting details."
  else if d = "comprehensive" then some "Perform deep research with exhaustive coverage, multiple perspectives, and detailed analysis."
  else none

/-- `ResearchAgent.buildResearchPrompt` (research-agent.ts lines 103-115).
A JS template literal renders `undefined` as the string "undefined". -/
def buildResearchPrompt (c : ResearchConfig) : String :=
  "Research Topic: " ++ c.topic ++ "\n\n"
    ++ (match depthInstructions c.depth with
        | some s => s
        | none => "undefined")
    ++ "\n\nPlease follow the research methodology and quality standards defined in your instructions."

/-- A streamed SDK message as consumed by `research()`: a type tag and a
content payload. -/
structure SDKMessage where
  type : String
  content : String
  deriving DecidableEq, Repr

/-- The options object handed to the external `query()` call. -/
structure QueryOptions where
  prompt : String
  model : String
  systemPrompt : String
  allowedTools : List String
  maxTurns : Nat
  settingSources : List String
  deriving DecidableEq, Repr

/-- The argument `ResearchAgent.research` builds for `query()`
(research-agent.ts lines 35-52): `searchIterations` is computed first
(line 35) and passed as `maxTurns`; `model` is `this.getModelByDepth()`. -/
def researchQueryOptions (c : ResearchConfig) : QueryOptions :=
  let searchIterations := getSearchIterations c.depth
  { prompt := buildResearchPrompt c
    model := getModelByDepth c.depth
    systemPrompt := buildSystemPrompt c
    allowedTools := ["WebSearch", "WebFetch", "Read", "Write", "Grep"]
    maxTurns := searchIterations
    settingSources := ["project"] }

/-- `ResearchAgent.formatResults` (research-agent.ts lines 180-197).  The
clock read `new Date().toISOString()` is passed in as `timestamp`. -/
def formatResults (c : ResearchConfig) (results : List String) (timestamp : String) : String :=
  let divider := "".pushn '=' 60
  "\n" ++ divider ++ "\nRESEARCH REPORT\nTopic: " ++ c.topic
    ++ "\nGenerated: " ++ timestamp
    ++ "\nDepth: " ++ c.depth ++ "\n" ++ divider ++ "\n\n"
    ++ String.intercalate "\n\n" results
    ++ "\n\n" ++ divider ++ "\nEND OF REPORT\n" ++ divider

/-- `ResearchAgent.research` (research-agent.ts lines 28-61): collects the
`content` of every streamed message with `type === "assistant"` and formats
the report.  The externally produced stream and the clock read are explicit
parameters. -/
def research (c : ResearchConfig) (msgs : List SDKMessage) (timestamp : String) : String :=
  let results := (msgs.filter (fun m => m.type = "assistant")).map (fun m => m.content)
  formatResults c results timestamp

/-!
State-passing forms of the `ResearchAgent` methods.  Each method is embedded
as a function from the receiver's `this.config` to the pair (return value,
`this.config` after the call).  No statement of any method body assigns to
`this.config` (the only assignment is in the constructor, line 22), so each
returns the input configuration as the final state.
-/

/-- State-passing `research`. -/
def researchS (c : ResearchConfig) (msgs : List SDKMessage) (timestamp : String) :
    String × ResearchConfig :=
  (research c msgs timestamp, c)

/-- State-passing `buildSystemPrompt`. -/
def buildSystemPromptS (c : ResearchConfig) : String × ResearchConfig :=
  (buildSystemPrompt c, c)

/-- State-passing `buildResearchPrompt`. -/
def buildResearchPromptS (c : ResearchConfig) : String × ResearchConfig :=
  (buildResearchPrompt c, c)

/-- State-passing `getModelByDepth`. -/
def getModelByDepthS (c : ResearchConfig) : String × ResearchConfig :=
  (getModelByDepth c.depth, c)

/-- State-passing `getSearchIterations`. -/
def getSearchIterationsS (c : ResearchConfig) : Nat × ResearchConfig :=
  (getSearchIterations c.depth, c)

/-- State-passing `formatResults`. -/
def formatResultsS (c : ResearchConfig) (results : List String) (timestamp : String) :
    String × ResearchConfig :=
  (formatResults c results timestamp, c)

/-- The resolved execution profile of one invocation (spec section 3): the
depth and output format the prompts are built from together with the model id
and turn budget handed to `query()`. -/
structure ExecutionProfile where
  depth : String
  outputFormat : OutputFormat
  model : String
  maxTurns : Nat
  deriving DecidableEq, Repr

/-- The profile `research()` effectively uses: `model` and `maxTurns` from the
two lookup methods, `depth` and `outputFormat` taken from the stored
configuration unchanged (research-agent.ts lines 35-52, 103-115, 120-147). -/
def effectiveProfile (c : ResearchConfig) : ExecutionProfile :=
  { depth := c.depth
    outputFormat := c.outputFormat
    model := getModelByDepth c.depth
    maxTurns := getSearchIterations c.depth }

/-- State-passing profile resolution: the resolved profile together with the
configuration after resolving (unchanged, as no method mutates it). -/
def resolveProfileS (c : ResearchConfig) : ExecutionProfile × ResearchConfig :=
  (effectiveProfile c, c)

/-- The `model` union type `"haiku" | "sonnet" | "opus"` of `AgentConfig` in
typescript-fundamentals.ts lines 385-391. -/
inductive ModelTier where
  | haiku
  | sonnet
  | opus
  deriving DecidableEq, Repr

/-- The `modelMap` record of `TypeSafeAgent.resolveModel`
(typescript-fundamentals.ts lines 402-406). -/
def modelMap : ModelTier → String
  | .haiku => "claude-haiku-4-5-20251001"
  | .sonnet => "claude-sonnet-4-5-20250929"
  | .opus => "claude-opus-4-1-20250514"

/-- `TypeSafeAgent.resolveModel` (typescript-fundamentals.ts lines 401-408):
indexes `modelMap` with `this.config.model`. -/
def resolveModel (m : ModelTier) : String :=
  modelMap m

/-!
Embedding of the pre-sales agent file: the `score_lead` custom tool and
`PreSalesAgent.formatFollowUpSequence`.
-/

/-- The input schema of the `score_lead` tool (zod object, pre-sales file
lines 36-43).  JS numbers are modelled as `ℚ`; the optional budget as
`Option ℚ`; the timeline is declared `z.string()`. -/
structure ScoreLeadInput where
  company_size : ℚ
  budget : Option ℚ
  timeline : String
  engagement_level : ℚ
  pain_point_match : ℚ
  decision_maker_access : Bool
  deriving DecidableEq, Repr

/-- Company size contribution, "max 20 points" (pre-sales file lines 48-52). -/
def companySizeScore (cs : ℚ) : ℚ :=
  if cs > 1000 then 20
  else if cs > 100 then 15
  else if cs > 10 then 10
  else 5

/-- Budget contribution, "max 25 points" (pre-sales file lines 54-62).
`if (input.budget)` is a JS truthiness test, so an absent budget and a budget
of 0 both take the `else` branch worth 5 points. -/
def budgetScore (b : Option ℚ) : ℚ :=
  match b with
  | some v =>
      if v = 0 then 5
      else if v > 100000 then 25
      else if v > 50000 then 20
      else if v > 10000 then 15
      else 10
  | none => 5

/-- Timeline contribution, "max 20 points" (pre-sales file lines 64-70): a
`switch` with four cases and no `default`, so any other string adds 0. -/
def timelineScore (t : String) : ℚ :=
  if t = "immediate" then 20
  else if t = "quarter" then 15
  else if t = "year" then 10
  else if t = "exploring" then 5
  else 0

/-- Engagement contribution `(engagement_level / 10) * 15` (line 73). -/
def engagementScore (e : ℚ) : ℚ :=
  e / 10 * 15

/-- Pain-point contribution `(pain_point_match / 10) * 15` (line 76). -/
def painPointScore (p : ℚ) : ℚ :=
  p / 10 * 15

/-- Decision-maker-access contribution (line 79). -/
def accessScore (b : Bool) : ℚ :=
  if b then 5 else 0

/-- The `factors` echo object of the tool result (pre-sales file lines
93-100): `input.budget || 'unknown'` substitutes the string "unknown" for a
falsy (absent or zero) budget. -/
structure ScoreLeadFactors where
  company_size : ℚ
  budget : String
  timeline : String
  engagement : ℚ
  pain_point_match : ℚ
  decision_maker_access : Bool
  deriving DecidableEq, Repr

/-- The result object of the `score_lead` tool (pre-sales file lines 90-101). -/
structure ScoreLeadResult where
  score : ℤ
  recommendation : String
  factors : ScoreLeadFactors
  deriving DecidableEq, Repr

/-- The `score_lead` tool handler (pre-sales file lines 44-102): sums the six
factor contributions in order, caps `Math.round(score)` at 100, and picks the
recommendation from the final score.  `Math.round` is round-half-up, which is
Mathlib's `round`. -/
def scoreLead (input : ScoreLeadInput) : ScoreLeadResult :=
  let score : ℚ :=
    companySizeScore input.company_size
      + budgetScore input.budget
      + timelineScore input.timeline
      + engagementScore input.engagement_level
      + painPointScore input.pain_point_match
      + accessScore input.decision_maker_access
  let finalScore : ℤ := min 100 (round score)
  let recommendation : String :=
    if finalScore ≥ 80 then "🔥 Hot Lead - Immediate Action Required"
    else if finalScore ≥ 60 then "✨ Warm Lead - High Priority"
    else if finalScore ≥ 40 then "📊 Qualified Lead - Standard Follow-up"
    else "❄️ Cold Lead - Nurture Campaign"
  { score := finalScore
    recommendation := recommendation
    factors :=
      { company_size := input.company_size
        budget :=
          match input.budget with
          | some v => if v = 0 then "unknown" else toString v
          | none => "unknown"
        timeline := input.timeline
        engagement := input.engagement_level
        pain_point_match := input.pain_point_match
        decision_maker_access := input.decision_maker_access } }

/-- A decision maker of the `LeadSchema` (pre-sales file lines 20-24). -/
structure DecisionMaker where
  name : String
  title : String
  email : Option String
  deriving DecidableEq, Repr

/-- The `Lead` type inferred from `LeadSchema` (pre-sales file lines 13-28). -/
structure Lead where
  company_name : String
  company_size : ℚ
  industry : String
  budget : Option ℚ
  timeline : String
  pain_points : List String
  decision_makers : List DecisionMaker
  engagement_level : ℚ
  deriving DecidableEq, Repr

/-- One touchpoint of the follow-up sequence (pre-sales file lines 387-392). -/
structure Touchpoint where
  number : Nat
  day : Nat
  channel : String
  content : String
  deriving DecidableEq, Repr

/-- The object returned by `formatFollowUpSequence` (pre-sales file lines
384-393). -/
structure FollowUpSequence where
  lead : String
  created : String
  touchpoints : List Touchpoint
  deriving DecidableEq, Repr

/-- `PreSalesAgent.formatFollowUpSequence` (pre-sales file lines 383-394):
maps the content list with its index to touchpoints numbered from 1, on day
`Math.floor(index * 3) + 1`, cycling email / linkedin / phone by `index % 3`.
The clock read `new Date().toISOString()` is passed in as `created`. -/
def formatFollowUpSequence (lead : Lead) (sequence : List String) (created : String) :
    FollowUpSequence :=
  { lead := lead.company_name
    created := created
    touchpoints := sequence.mapIdx (fun index content =>
      { number := index + 1
        day := index * 3 + 1
        channel := if index % 3 = 0 then "email" else if index % 3 = 1 then "linkedin" else "phone"
        content := content }) }

/-!
Helper lemmas about the score factors.
-/

/-- The company-size factor contributes at least 5 points. -/
theorem five_le_companySizeScore (cs : ℚ) : 5 ≤ companySizeScore cs := by
  unfold companySizeScore
  split_ifs <;> norm_num

/-- The budget factor contributes at least 5 points. -/
theorem five_le_budgetScore (b : Option ℚ) : 5 ≤ budgetScore b := by
  cases b with
  | none => norm_num [budgetScore]
  | some v =>
      simp only [budgetScore]
      split_ifs <;> norm_num

/-- The timeline factor is nonnegative. -/
theorem timelineScore_nonneg (t : String) : 0 ≤ timelineScore t := by
  unfold timelineScore
  split_ifs <;> norm_num

/-- The engagement factor is nonnegative for a nonnegative level. -/
theorem engagementScore_nonneg {e : ℚ} (he : 0 ≤ e) : 0 ≤ engagementScore e := by
  unfold engagementScore
  positivity

/-- The pain-point factor is nonnegative for a nonnegative match. -/
theorem painPointScore_nonneg {p : ℚ} (hp : 0 ≤ p) : 0 ≤ painPointScore p := by
  unfold painPointScore
  positivity

/-- The access factor is nonnegative. -/
theorem accessScore_nonneg (b : Bool) : 0 ≤ accessScore b := by
  unfold accessScore
  split_ifs <;> norm_num

/-!
Claim theorems.
-/

/-- C1: evaluation of the resolver at the failing input of the documented
development mode.  `test-dev-mode.ts` requests depth `comprehensive` under
`NODE_ENV=development` and the README states the agent must then use the
Haiku model with at most 5 iterations; but `getModelByDepth` and
`getSearchIterations` take no runtime mode at all (they read only the depth,
research-agent.ts lines 152-175), and at depth `comprehensive` they return
the Opus model and 40 turns. -/
theorem c1_dev_mode_eval :
    getModelByDepth "comprehensive" = "claude-opus-4-1-20250805" ∧
    getSearchIterations "comprehensive" = 40 := by
  constructor <;> rfl

/-- C2 counterexample: at the out-of-enum depth "extreme" the resolver does
not fail; it silently produces exactly the default (standard-tier) model and
turn count, so the claim that it never silently falls back is false. -/
theorem c2_counterexample :
    getModelByDepth "extreme" = getModelByDepth "standard" ∧
    getSearchIterations "extreme" = getSearchIterations "standard" := by
  constructor <;> rfl

/-- C2 (amended): for any depth outside the enum, the resolver signals no
error and silently falls back to the default model
`claude-sonnet-4-5-20250929` and the default turn count 20. -/
theorem c2_invalid_depth_silent_fallback (d : String)
    (hq : d ≠ "quick") (hs : d ≠ "standard") (hc : d ≠ "comprehensive") :
    getModelByDepth d = "claude-sonnet-4-5-20250929" ∧ getSearchIterations d = 20 := by
  unfold getModelByDepth getSearchIterations
  rw [if_neg hq, if_neg hs, if_neg hc, if_neg hq, if_neg hs, if_neg hc]
  exact ⟨rfl, rfl⟩

/-- C2 witness: the amended statement at the concrete depth "extreme". -/
theorem c2_witness :
    getModelByDepth "extreme" = "claude-sonnet-4-5-20250929" ∧
    getSearchIterations "extreme" = 20 :=
  c2_invalid_depth_silent_fallback "extreme" (by decide) (by decide) (by decide)

/-- C3: the resolver is the fixed lookup table quick ↦ (Haiku, 10),
standard ↦ (Sonnet, 20), comprehensive ↦ (Opus, 40), and the requested
output format is passed through to the resolved profile unchanged. -/
theorem c3_production_lookup_table :
    getModelByDepth "quick" = "claude-haiku-4-5-20251001" ∧
    getSearchIterations "quick" = 10 ∧
    getModelByDepth "standard" = "claude-sonnet-4-5-20250929" ∧
    getSearchIterations "standard" = 20 ∧
    getModelByDepth "comprehensive" = "claude-opus-4-1-20250805" ∧
    getSearchIterations "comprehensive" = 40 ∧
    ∀ c : ResearchConfig, (effectiveProfile c).outputFormat = c.outputFormat :=
  ⟨rfl, rfl, rfl, rfl, rfl, rfl, fun _ => rfl⟩

/-- C4: for every depth input, the resolved turn count is positive and drawn
from the fixed table values 10, 20, 40, and the resolved model id is always
one of the three fixed tier entries. -/
theorem c4_resolver_range_invariant (d : String) :
    0 < getSearchIterations d ∧
    (getSearchIterations d = 10 ∨ getSearchIterations d = 20 ∨ getSearchIterations d = 40) ∧
    (getModelByDepth d = "claude-haiku-4-5-20251001" ∨
      getModelByDepth d = "claude-sonnet-4-5-20250929" ∨
      getModelByDepth d = "claude-opus-4-1-20250805") := by
  unfold getSearchIterations getModelByDepth
  split_ifs <;> simp

/-- C5: the resolver is deterministic and idempotent.  In the state-passing
embedding, resolving, then resolving again from the state left by the first
call, yields the same profile, and the configuration is exactly the initial
one — there is no hidden state, I/O, or randomness in the embedded code. -/
theorem c5_resolver_idempotent (c : ResearchConfig) :
    (resolveProfileS ((resolveProfileS c).2)).1 = (resolveProfileS c).1 ∧
    (resolveProfileS ((resolveProfileS c).2)).2 = c :=
  ⟨rfl, rfl⟩

/-- C6: the options object `research()` hands to the external `query()` call
carries exactly the model id returned by `getModelByDepth` and exactly the
turn count returned by `getSearchIterations`, for every configuration. -/
theorem c6_profile_handed_unmodified (c : ResearchConfig) :
    (researchQueryOptions c).model = getModelByDepth c.depth ∧
    (researchQueryOptions c).maxTurns = getSearchIterations c.depth :=
  ⟨rfl, rfl⟩

/-- C7: no `ResearchAgent` method mutates the configuration: in the
state-passing embedding, `research`, `buildSystemPrompt`,
`buildResearchPrompt`, `getModelByDepth`, `getSearchIterations` and
`formatResults` all return the receiver configuration unchanged. -/
theorem c7_config_never_mutated (c : ResearchConfig) (msgs : List SDKMessage)
    (results : List String) (t : String) :
    (researchS c msgs t).2 = c ∧
    (buildSystemPromptS c).2 = c ∧
    (buildResearchPromptS c).2 = c ∧
    (getModelByDepthS c).2 = c ∧
    (getSearchIterationsS c).2 = c ∧
    (formatResultsS c results t).2 = c :=
  ⟨rfl, rfl, rfl, rfl, rfl, rfl⟩

/-- C9 counterexample: the two tier tables disagree on the deepest tier —
`TypeSafeAgent.resolveModel` maps `opus` to `claude-opus-4-1-20250514` while
`ResearchAgent.getModelByDepth` maps `comprehensive` to
`claude-opus-4-1-20250805`. -/
theorem c9_counterexample :
    resolveModel ModelTier.opus ≠ getModelByDepth "comprehensive" := by
  decide

/-- C9 (amended): the two tier tables agree on the quick/haiku and
standard/sonnet tiers, but on the comprehensive/opus tier they return
different model ids (`claude-opus-4-1-20250514` vs
`claude-opus-4-1-20250805`). -/
theorem c9_tables_partial_agreement :
    resolveModel ModelTier.haiku = getModelByDepth "quick" ∧
    resolveModel ModelTier.sonnet = getModelByDepth "standard" ∧
    resolveModel ModelTier.opus = "claude-opus-4-1-20250514" ∧
    getModelByDepth "comprehensive" = "claude-opus-4-1-20250805" :=
  ⟨rfl, rfl, rfl, rfl⟩

/-- C8: for every input accepted by the `score_lead` schema, the returned
score is an integer between 10 and 100, and the recommendation is determined
solely by the score through the thresholds 80 (hot), 60 (warm) and 40
(qualified). -/
theorem c8_score_lead_bounds (i : ScoreLeadInput)
    (he0 : 0 ≤ i.engagement_level) (he1 : i.engagement_level ≤ 10)
    (hp0 : 0 ≤ i.pain_point_match) (hp1 : i.pain_point_match ≤ 10) :
    10 ≤ (scoreLead i).score ∧ (scoreLead i).score ≤ 100 ∧
    (scoreLead i).recommendation =
      (if (scoreLead i).score ≥ 80 then "🔥 Hot Lead - Immediate Action Required"
       else if (scoreLead i).score ≥ 60 then "✨ Warm Lead - High Priority"
       else if (scoreLead i).score ≥ 40 then "📊 Qualified Lead - Standard Follow-up"
       else "❄️ Cold Lead - Nurture Campaign") := by
  have hs : (scoreLead i).score =
      min 100 (round (companySizeScore i.company_size + budgetScore i.budget
        + timelineScore i.timeline + engagementScore i.engagement_level
        + painPointScore i.pain_point_match + accessScore i.decision_maker_access)) := rfl
  have hbase : (10 : ℚ) ≤ companySizeScore i.company_size + budgetScore i.budget
      + timelineScore i.timeline + engagementScore i.engagement_level
      + painPointScore i.pain_point_match + accessScore i.decision_maker_access := by
    have h1 := five_le_companySizeScore i.company_size
    have h2 := five_le_budgetScore i.budget
    have h3 := timelineScore_nonneg i.timeline
    have h4 := engagementScore_nonneg he0
    have h5 := painPointScore_nonneg hp0
    have h6 := accessScore_nonneg i.decision_maker_access
    linarith
  refine ⟨?_, ?_, rfl⟩
  · rw [hs]
    refine le_min (by norm_num) ?_
    rw [round_eq]
    refine Int.le_floor.mpr ?_
    push_cast
    linarith
  · rw [hs]
    exact min_le_left _ _

/-- A concrete `score_lead` input, matching the example lead of the
pre-sales file. -/
def demoScoreInput : ScoreLeadInput :=
  { company_size := 500
    budget := some 50000
    timeline := "quarter"
    engagement_level := 7
    pain_point_match := 8
    decision_maker_access := true }

/-- C8 witness: the theorem applied at a concrete input with all schema-range
hypotheses discharged. -/
theorem c8_witness :
    10 ≤ (scoreLead demoScoreInput).score ∧ (scoreLead demoScoreInput).score ≤ 100 ∧
    (scoreLead demoScoreInput).recommendation =
      (if (scoreLead demoScoreInput).score ≥ 80 then "🔥 Hot Lead - Immediate Action Required"
       else if (scoreLead demoScoreInput).score ≥ 60 then "✨ Warm Lead - High Priority"
       else if (scoreLead demoScoreInput).score ≥ 40 then "📊 Qualified Lead - Standard Follow-up"
       else "❄️ Cold Lead - Nurture Campaign") :=
  c8_score_lead_bounds demoScoreInput (by norm_num [demoScoreInput])
    (by norm_num [demoScoreInput]) (by norm_num [demoScoreInput]) (by norm_num [demoScoreInput])

/-- C10: for every lead and content list, `formatFollowUpSequence` returns
one touchpoint per content string; the touchpoint at index i is numbered
i + 1, scheduled on day 3 * i + 1, delivered by email when i mod 3 = 0, by
linkedin when i mod 3 = 1, by phone otherwise, and carries the i-th content
string. -/
theorem c10_followup_touchpoints (lead : Lead) (sequence : List String) (created : String)
    (i : Nat) (h : i < sequence.length) :
    (formatFollowUpSequence lead sequence created).touchpoints.length = sequence.length ∧
    (formatFollowUpSequence lead sequence created).touchpoints[i]? =
      some { number := i + 1
             day := 3 * i + 1
             channel := if i % 3 = 0 then "email" else if i % 3 = 1 then "linkedin" else "phone"
             content := sequence.get ⟨i, h⟩ } := by
  refine ⟨by simp [formatFollowUpSequence], ?_⟩
  simp only [formatFollowUpSequence, List.getElem?_mapIdx]
  rw [List.getElem?_eq_getElem h]
  simp [List.get_eq_getElem, Touchpoint.mk.injEq, Nat.mul_comm]

/-- The example lead used by the `followup` CLI command of the pre-sales
file. -/
def demoLead : Lead :=
  { company_name := "Target Company"
    company_size := 200
    industry := "Finance"
    budget := none
    timeline := "immediate"
    pain_points := ["Compliance", "Reporting"]
    decision_makers := [{ name := "Jane Doe", title := "VP of Operations", email := none }]
    engagement_level := 8 }

/-- C10 witness: the theorem applied at a concrete lead, content list and
index, with the bound hypothesis discharged and all fields evaluated. -/
theorem c10_witness :
    (formatFollowUpSequence demoLead ["intro email", "case study", "call agenda", "closing note"]
      "2025-01-01T00:00:00Z").touchpoints.length = 4 ∧
    (formatFollowUpSequence demoLead ["intro email", "case study", "call agenda", "closing note"]
      "2025-01-01T00:00:00Z").touchpoints[1]? =
      some { number := 2, day := 4, channel := "linkedin", content := "case study" } :=
  c10_followup_touchpoints demoLead
    ["intro email", "case study", "call agenda", "closing note"] "2025-01-01T00:00:00Z" 1
    (by decide)
